import Mathlib

/-!
# Retail360 self-checkout system — verification of the domain logic

Shallow embedding of the domain logic of `src/app.py` (a Streamlit + SQLite
self-checkout application).  The SQLite tables become lists of records, the
session cart (a Python dict keyed by barcode, insertion ordered) becomes an
association list, and money amounts (Python floats holding decimal currency
values) are idealised as exact rationals.  Nondeterministic environment inputs
(`datetime.now()` timestamps, `uuid4()` suffixes) are passed explicitly as
arguments.  Fallible operations return `Option`/`Except`.
-/

/-- Whitespace predicate of Python `str.strip()` (ASCII subset: space, tab,
newline, carriage return, vertical tab, form feed). -/
def isPySpace (c : Char) : Bool :=
  c = ' ' || c = '\t' || c = '\n' || c = '\r' || c = '\x0b' || c = '\x0c'

/-- Python `str.strip()` on the character list: drop whitespace from both ends. -/
def pyStripList (l : List Char) : List Char :=
  ((l.dropWhile isPySpace).reverse.dropWhile isPySpace).reverse

/-- Python `str.strip()`. -/
def pyStrip (s : String) : String := String.mk (pyStripList s.data)

/-- Python `str.startswith(pre)`. -/
def pyStartsWith (s p : String) : Bool := p.data.isPrefixOf s.data

/-- Python `str.rjust` / format `:>n`: left-pad with spaces to width `n`. -/
def rjust (s : String) (n : Nat) : String :=
  String.mk (List.replicate (n - s.data.length) ' ') ++ s

/-- Python `str.ljust` / format `:<n`: right-pad with spaces to width `n`. -/
def ljust (s : String) (n : Nat) : String :=
  s ++ String.mk (List.replicate (n - s.data.length) ' ')

/-- Round-half-even integer rounding used by Python `round` and float formatting. -/
def roundHalfEven (x : Rat) : Int :=
  let f := Int.floor x
  let r := x - (f : Rat)
  if r < 1/2 then f
  else if 1/2 < r then f + 1
  else if f % 2 = 0 then f else f + 1

/-- Python `round(x, 2)`: round to two decimal places, ties to even. -/
def pyRound2 (x : Rat) : Rat := (roundHalfEven (x * 100) : Rat) / 100

/-- Python format `:.2f`: fixed-point rendering with two decimals. -/
def fmt2 (x : Rat) : String :=
  let c := roundHalfEven (x * 100)
  let a := c.natAbs
  (if c < 0 then "-" else "") ++ toString (a / 100) ++ "." ++
    (if a % 100 < 10 then "0" else "") ++ toString (a % 100)

/-- `TAX_RATE = 0.18` (`src/app.py` line 90), as an exact rational. -/
def TAX_RATE : Rat := 18 / 100

/-- A row of the `products` table (DDL, `src/app.py` lines 96-110). -/
structure Product where
  product_id : Int
  barcode : String
  product_name : String
  brand : String
  category : String
  price : Rat
  stock_quantity : Int
  description : String
  image_url : String
  created_at : String
  updated_at : String
deriving DecidableEq, Repr

/-- A row of the `transactions` table (DDL, lines 111-123). -/
structure TransRow where
  trans_id : String
  timestamp : String
  customer_name : String
  subtotal : Rat
  tax_amount : Rat
  total : Rat
  utr : String
  exit_code : String
  status : String
deriving DecidableEq, Repr

/-- A row of the `transaction_items` table (DDL, lines 124-135); the
auto-increment `id` column is represented by list position. -/
structure ItemRow where
  trans_id : String
  product_id : Int
  qty : Int
  unit_price : Rat
  line_total : Rat
deriving DecidableEq, Repr

/-- The SQLite database state: the three tables, rows in rowid order. -/
structure DB where
  products : List Product
  transactions : List TransRow
  transaction_items : List ItemRow
deriving DecidableEq, Repr

/-- The column subset returned by `get_product_by_barcode` (lines 181-190). -/
structure ProductInfo where
  product_id : Int
  barcode : String
  product_name : String
  brand : String
  category : String
  price : Rat
  stock_quantity : Int
deriving DecidableEq, Repr

/-- `get_product_by_barcode` (lines 178-191): `SELECT ... WHERE barcode = ?`
on the stripped barcode; `fetchone` returns the first matching row or `None`. -/
def get_product_by_barcode (db : DB) (barcode : String) : Option ProductInfo :=
  (db.products.find? (fun p => p.barcode = pyStrip barcode)).map fun p =>
    { product_id := p.product_id, barcode := p.barcode, product_name := p.product_name,
      brand := p.brand, category := p.category, price := p.price,
      stock_quantity := p.stock_quantity }

/-- A value of the session cart dict `st.session_state.cart[barcode]`:
the product dict spread together with `qty` and `line_total` (line 399). -/
structure CartEntry where
  product_id : Int
  barcode : String
  product_name : String
  brand : String
  category : String
  price : Rat
  stock_quantity : Int
  qty : Int
  line_total : Rat
deriving DecidableEq, Repr

/-- The session cart: Python dict keyed by the scanned barcode string,
insertion ordered. -/
abbrev Cart : Type := List (String × CartEntry)

/-- The new cart value created on first scan (line 399):
`{**product, 'qty': 1, 'line_total': product['price']}`. -/
def newCartEntry (product : ProductInfo) : CartEntry :=
  { product_id := product.product_id, barcode := product.barcode,
    product_name := product.product_name, brand := product.brand,
    category := product.category, price := product.price,
    stock_quantity := product.stock_quantity, qty := 1, line_total := product.price }

/-- `add_item_to_cart` (lines 393-402): on a catalog hit, increment the
quantity of an existing line keyed by the raw barcode, or append a new line at
quantity 1; on a miss, the cart is untouched (an error message is shown). -/
def add_item_to_cart (db : DB) (cart : Cart) (barcode : String) : Cart :=
  match get_product_by_barcode db barcode with
  | some product =>
      if cart.any (fun e => e.1 = barcode) then
        cart.map (fun e =>
          if e.1 = barcode then (e.1, { e.2 with qty := e.2.qty + 1 }) else e)
      else
        cart ++ [(barcode, newCartEntry product)]
  | none => cart

/-- An element of the `cart_items` list built in `process_payment`
(lines 479-482). -/
structure CartItem where
  product_id : Int
  qty : Int
  price : Rat
  line_total : Rat
deriving DecidableEq, Repr

/-- `save_transaction` (lines 193-212).  The wall-clock second `ts`
(`datetime.now().strftime('%Y%m%d%H%M%S')`), the random suffix `rand`
(`str(uuid.uuid4())[:8]`) and the ISO timestamp `iso` are explicit
environment inputs.  The `UNIQUE`/primary-key constraints of the
`transactions` DDL make the INSERT raise when a duplicate `trans_id` or
`exit_code` is already stored; this surfaces as `Except.error`, and no row
is written in that case. -/
def save_transaction (db : DB) (customer_name : String) (cart_items : List CartItem)
    (subtotal tax_amount total : Rat) (utr : String)
    (ts rand iso : String) : Except String (DB × String × String) :=
  let trans_id := "TXN-" ++ ts ++ "-" ++ rand
  let exit_code := "EXIT-" ++ ts
  if db.transactions.any (fun t => t.trans_id = trans_id) then
    Except.error "UNIQUE constraint failed: transactions.trans_id"
  else if db.transactions.any (fun t => t.exit_code = exit_code) then
    Except.error "UNIQUE constraint failed: transactions.exit_code"
  else
    let row : TransRow :=
      { trans_id := trans_id, timestamp := iso,
        customer_name := if customer_name = "" then "Anonymous" else customer_name,
        subtotal := subtotal, tax_amount := tax_amount, total := total,
        utr := utr, exit_code := exit_code, status := "completed" }
    let items : List ItemRow := cart_items.map fun item =>
      { trans_id := trans_id, product_id := item.product_id, qty := item.qty,
        unit_price := item.price, line_total := item.line_total }
    Except.ok
      ({ db with
          transactions := db.transactions ++ [row],
          transaction_items := db.transaction_items ++ items },
       trans_id, exit_code)

/-- The transaction dict built by `get_transaction_by_exit_code`
(lines 224-227). -/
structure TransData where
  trans_id : String
  timestamp : String
  customer_name : String
  subtotal : Rat
  tax_amount : Rat
  total : Rat
  utr : String
deriving DecidableEq, Repr

/-- A row of the `items_df` join (lines 228-232). -/
structure JoinedItem where
  product_id : Int
  product_name : String
  brand : String
  qty : Int
  unit_price : Rat
  line_total : Rat
deriving DecidableEq, Repr

/-- `get_transaction_by_exit_code` (lines 214-233): exact-match lookup of the
stripped code against `transactions.exit_code`, then the inner join of the
transaction's item rows with `products` on `product_id`. -/
def get_transaction_by_exit_code (db : DB) (exit_code : String) :
    Option (TransData × List JoinedItem) :=
  match db.transactions.find? (fun t => t.exit_code = pyStrip exit_code) with
  | none => none
  | some t =>
      some ({ trans_id := t.trans_id, timestamp := t.timestamp,
              customer_name := t.customer_name, subtotal := t.subtotal,
              tax_amount := t.tax_amount, total := t.total, utr := t.utr },
            db.transaction_items.filterMap fun ti =>
              if ti.trans_id = t.trans_id then
                (db.products.find? (fun p => p.product_id = ti.product_id)).map fun p =>
                  { product_id := ti.product_id, product_name := p.product_name,
                    brand := p.brand, qty := ti.qty, unit_price := ti.unit_price,
                    line_total := ti.line_total }
              else none)

/-- The subtotal / tax / grand total triple shown in the cart summary and
used at payment. -/
structure CartSummary where
  subtotal : Rat
  tax_amount : Rat
  total : Rat
deriving DecidableEq, Repr

/-- The summary block of `display_cart` (lines 424-438): a running `total`
accumulated over the cart lines as `price * qty`, then
`tax_amount = subtotal * TAX_RATE` and `grand_total = subtotal + tax_amount`. -/
def display_cart_summary (cart : Cart) : CartSummary :=
  let total := cart.foldl (fun acc e => acc + e.2.price * (e.2.qty : Rat)) 0
  let subtotal := total
  let tax_amount := subtotal * TAX_RATE
  { subtotal := subtotal, tax_amount := tax_amount, total := subtotal + tax_amount }

/-- The summary computed by `process_payment` (lines 467-469):
`subtotal = sum(item['price'] * item['qty'] ...)`, `tax_amount = subtotal *
TAX_RATE`, `grand_total = subtotal + tax_amount`.  Python `sum` is a left
fold starting from 0. -/
def process_payment_summary (cart : Cart) : CartSummary :=
  let subtotal := (cart.map (fun e => e.2.price * (e.2.qty : Rat))).foldl (· + ·) 0
  let tax_amount := subtotal * TAX_RATE
  { subtotal := subtotal, tax_amount := tax_amount, total := subtotal + tax_amount }

/-- The `cart_items` list built by `process_payment` before committing
(lines 479-482); the line total is recomputed as `price * qty`. -/
def payment_cart_items (cart : Cart) : List CartItem :=
  cart.map fun e =>
    { product_id := e.2.product_id, qty := e.2.qty, price := e.2.price,
      line_total := e.2.price * (e.2.qty : Rat) }

/-- The exit-pass QR payload built by `process_payment` (line 517):
`f"EXIT:{exit_code}|TOTAL:{grand_total:.2f}|TXN:{trans_id}"`. -/
def exit_qr_payload (exit_code : String) (grand_total : Rat) (trans_id : String) : String :=
  "EXIT:" ++ exit_code ++ "|TOTAL:" ++ fmt2 grand_total ++ "|TXN:" ++ trans_id

/-- One `pdf.cell(w, h, txt, border, ln, align)` call of
`generate_pdf_invoice`; the geometry arguments are carried verbatim. -/
structure PdfCell where
  w : Nat
  h : Nat
  txt : String
  border : Nat
  ln : Nat
  align : String
deriving DecidableEq, Repr

/-- The four bordered item cells per row of the PDF item table (lines 285-290). -/
def pdf_item_cells (item : JoinedItem) : List PdfCell :=
  [⟨80, 8, item.product_name ++ " (" ++ item.brand ++ ")", 1, 0, ""⟩,
   ⟨30, 8, toString item.qty, 1, 0, ""⟩,
   ⟨40, 8, "Rs. " ++ fmt2 item.unit_price, 1, 0, ""⟩,
   ⟨40, 8, "Rs. " ++ fmt2 item.line_total, 1, 0, ""⟩]

/-- The right-aligned summary cells of the PDF invoice (lines 294-300). -/
def pdf_summary_cells (td : TransData) : List PdfCell :=
  [⟨150, 8, "Subtotal:", 0, 0, "R"⟩,
   ⟨40, 8, "Rs. " ++ fmt2 td.subtotal, 0, 1, "R"⟩,
   ⟨150, 8, "Tax (18%):", 0, 0, "R"⟩,
   ⟨40, 8, "Rs. " ++ fmt2 td.tax_amount, 0, 1, "R"⟩,
   ⟨150, 8, "TOTAL:", 0, 0, "R"⟩,
   ⟨40, 8, "Rs. " ++ fmt2 td.total, 0, 1, "R"⟩]

/-- `generate_pdf_invoice` (lines 258-306) as the ordered sequence of cells it
emits: title, metadata, item-table header, one row of cells per item, the
summary block, and the footer.  (Fonts and `ln()` spacing calls carry no text
and are not modelled.) -/
def generate_pdf_invoice (td : TransData) (items : List JoinedItem) : List PdfCell :=
  [⟨0, 10, "RETAIL360 INVOICE", 0, 1, "C"⟩,
   ⟨0, 8, "Transaction ID: " ++ td.trans_id, 0, 1, ""⟩,
   ⟨0, 8, "Date: " ++ String.mk (td.timestamp.data.take 19), 0, 1, ""⟩,
   ⟨0, 8, "Customer: " ++ td.customer_name, 0, 1, ""⟩,
   ⟨0, 8, "UTR: " ++ td.utr, 0, 1, ""⟩,
   ⟨80, 8, "Product Name", 1, 0, ""⟩, ⟨30, 8, "Qty", 1, 0, ""⟩,
   ⟨40, 8, "Unit Price", 1, 0, ""⟩, ⟨40, 8, "Total", 1, 0, ""⟩] ++
  (items.map pdf_item_cells).flatten ++
  pdf_summary_cells td ++
  [⟨0, 10, "Thank you for shopping with Retail360!", 0, 1, "C"⟩]

/-- One item line of the text invoice (lines 322-324): name+brand truncated to
24 characters and left-justified to 25, then quantity, unit price and line
total right-justified. -/
def text_invoice_item_line (item : JoinedItem) : String :=
  ljust (String.mk ((item.product_name ++ " (" ++ item.brand ++ ")").data.take 24)) 25 ++
    " | " ++ rjust (toString item.qty) 4 ++ " | " ++
    rjust (fmt2 item.unit_price) 8 ++ " | " ++ rjust (fmt2 item.line_total) 8 ++ "\n"

/-- `generate_text_invoice` (lines 308-335): the accumulated invoice string. -/
def generate_text_invoice (td : TransData) (items : List JoinedItem) : String :=
  "==============================================\n" ++
  "              RETAIL360 INVOICE               \n" ++
  "==============================================\n" ++
  ("Transaction ID: " ++ td.trans_id ++ "\n") ++
  ("Date: " ++ String.mk (td.timestamp.data.take 19) ++ "\n") ++
  ("Customer: " ++ td.customer_name ++ "\n") ++
  ("UTR: " ++ td.utr ++ "\n") ++
  "----------------------------------------------\n" ++
  (ljust "Product Name" 25 ++ " | " ++ rjust "Qty" 4 ++ " | " ++
    rjust "Price" 8 ++ " | " ++ rjust "Total" 8 ++ "\n") ++
  "----------------------------------------------\n" ++
  (items.map text_invoice_item_line).foldl (· ++ ·) "" ++
  "----------------------------------------------\n" ++
  ("Subtotal: " ++ rjust ("Rs. " ++ fmt2 td.subtotal) 33 ++ "\n") ++
  ("Tax (18%): " ++ rjust ("Rs. " ++ fmt2 td.tax_amount) 32 ++ "\n") ++
  "----------------------------------------------\n" ++
  ("TOTAL: " ++ rjust ("Rs. " ++ fmt2 td.total) 36 ++ "\n") ++
  "==============================================\n" ++
  "       Thank you for shopping with us!        \n" ++
  "==============================================\n"

/-- Outcome presented by the exit-verification interface for one code. -/
inductive ExitOutcome where
  | approved (td : TransData) (items : List JoinedItem)
  | denied
  | notApplicable
deriving DecidableEq, Repr

/-- `verify_exit_code` (lines 337-360): look the code up in the ledger; a hit
shows the approval panel with the transaction data and items, a miss shows the
"Invalid exit code" error. -/
def verify_exit_code (db : DB) (exit_code : String) : ExitOutcome :=
  match get_transaction_by_exit_code db exit_code with
  | some (td, items) => ExitOutcome.approved td items
  | none => ExitOutcome.denied

/-- The scanned-code branch of `exit_verification_interface` (lines 537-539)
for one decoded code: `verify_exit_code` runs only when the raw code starts
with `"EXIT:"` or `"EXIT-"`; otherwise the code is skipped silently. -/
def scanned_exit_check (db : DB) (code : String) : ExitOutcome :=
  if pyStartsWith code "EXIT:" || pyStartsWith code "EXIT-" then
    verify_exit_code db code
  else ExitOutcome.notApplicable

/-- The manual-entry branch of `exit_verification_interface` (lines 559-561):
any non-empty `emergency_code` is passed straight to `verify_exit_code`
(Python's emptiness truth test), with no prefix requirement. -/
def manual_exit_check (db : DB) (code : String) : ExitOutcome :=
  if code = "" then ExitOutcome.notApplicable else verify_exit_code db code

/-- One parsed CSV row handed to `load_products_from_csv` after `fillna('')`.
The `int(...)`/`float(...)` conversions of `product_id`, `price` and
`stock_quantity` (lines 163-165) are Python builtins (external); a field is
`none` when its conversion raises (missing value, i.e. `float('')`, or a
type-invalid cell).  String-typed columns are total via `str(...)`, and the
`row.get(..., default)` columns carry their defaulted value. -/
structure CsvRow where
  product_id : Option Int
  barcode : String
  product_name : String
  brand : String
  category : String
  price : Option Rat
  stock_quantity : Option Int
  description : String
  image_url : String
  created_at : String
  updated_at : String
deriving DecidableEq, Repr

/-- The `products` row built from a fully convertible CSV row. -/
def rowProduct (r : CsvRow) (pid : Int) (pr : Rat) (sq : Int) : Product :=
  { product_id := pid, barcode := r.barcode, product_name := r.product_name,
    brand := r.brand, category := r.category, price := pr, stock_quantity := sq,
    description := r.description, image_url := r.image_url,
    created_at := r.created_at, updated_at := r.updated_at }

/-- Whether all fallible conversions of the row succeed. -/
def rowOk (r : CsvRow) : Bool :=
  r.product_id.isSome && r.price.isSome && r.stock_quantity.isSome

/-- SQLite `INSERT OR REPLACE INTO products` (lines 157-168): rows conflicting
on the `product_id` primary key or the `UNIQUE` barcode are replaced by the
new row. -/
def upsertProduct (ps : List Product) (p : Product) : List Product :=
  ps.filter (fun q => decide (q.product_id ≠ p.product_id ∧ q.barcode ≠ p.barcode)) ++ [p]

/-- The body of one loop iteration of `load_products_from_csv`: `none` when a
conversion raises (the row is skipped and reported), otherwise the upserted
database. -/
def csv_insert_row (db : DB) (r : CsvRow) : Option DB :=
  match r.product_id, r.price, r.stock_quantity with
  | some pid, some pr, some sq =>
      some { db with products := upsertProduct db.products (rowProduct r pid pr sq) }
  | _, _, _ => none

/-- The `st.warning` text for a skipped row (line 171):
`f"Skipped row {row.get('product_id', 'N/A')}: ..."`; the appended exception
text is environment-dependent and not modelled. -/
def skip_message (r : CsvRow) : String :=
  "Skipped row " ++ (match r.product_id with | some pid => toString pid | none => "N/A")

/-- `load_products_from_csv` (lines 149-176): iterate the rows, upserting each
convertible row and counting it, collecting a warning per skipped row; the
success count is returned. -/
def load_products_from_csv (db : DB) (rows : List CsvRow) : DB × Nat × List String :=
  rows.foldl
    (fun acc r =>
      match csv_insert_row acc.1 r with
      | some db2 => (db2, acc.2.1 + 1, acc.2.2)
      | none => (acc.1, acc.2.1, acc.2.2 ++ [skip_message r]))
    (db, 0, [])

/-- The transaction row inserted by a successful `save_transaction`. -/
def savedTransRow (customer_name : String) (subtotal tax_amount total : Rat)
    (utr ts rand iso : String) : TransRow :=
  { trans_id := "TXN-" ++ ts ++ "-" ++ rand, timestamp := iso,
    customer_name := if customer_name = "" then "Anonymous" else customer_name,
    subtotal := subtotal, tax_amount := tax_amount, total := total,
    utr := utr, exit_code := "EXIT-" ++ ts, status := "completed" }

/-- The item row inserted by `save_transaction` for one cart item. -/
def savedItemRow (ts rand : String) (item : CartItem) : ItemRow :=
  { trans_id := "TXN-" ++ ts ++ "-" ++ rand, product_id := item.product_id,
    qty := item.qty, unit_price := item.price, line_total := item.line_total }

/-- Concrete post-commit store used to instantiate C3. -/
def c3db1 : DB :=
  { products := [],
    transactions :=
      [{ trans_id := "TXN-20250101120000-abcd1234",
         timestamp := "iso",
         customer_name := "A",
         subtotal := 100,
         tax_amount := 18,
         total := 118,
         utr := "u",
         exit_code := "EXIT-20250101120000",
         status := "completed" }],
    transaction_items :=
      [{ trans_id := "TXN-20250101120000-abcd1234",
         product_id := 1,
         qty := 1,
         unit_price := 100,
         line_total := 100 }] }

/-- Catalog row used by the concrete C1 instance. -/
def c1prod : Product :=
  { product_id := 1, barcode := "B1", product_name := "Pen", brand := "Acme",
    category := "Stationery", price := 100, stock_quantity := 10,
    description := "", image_url := "", created_at := "", updated_at := "" }

/-- Concrete post-commit store used to instantiate C1. -/
def c1db1 : DB :=
  { products := [c1prod],
    transactions :=
      [{ trans_id := "TXN-20250101120000-abcd1234",
         timestamp := "iso",
         customer_name := "A",
         subtotal := 100,
         tax_amount := 18,
         total := 118,
         utr := "u",
         exit_code := "EXIT-20250101120000",
         status := "completed" }],
    transaction_items :=
      [{ trans_id := "TXN-20250101120000-abcd1234",
         product_id := 1,
         qty := 1,
         unit_price := 100,
         line_total := 100 }] }

/-- A cart holding one unit of a ₹1.11 product: `subtotal * 0.18 = 0.1998`,
which is not equal to its two-decimal rounding `0.20`. -/
def c2cart : Cart :=
  [("111", { product_id := 1, barcode := "111", product_name := "P", brand := "B",
             category := "C", price := 111/100, stock_quantity := 5, qty := 1,
             line_total := 111/100 })]

/-- A cart item for the concrete C5 commits. -/
def c5item : CartItem := { product_id := 1, qty := 1, price := 100, line_total := 100 }

/-- The store after the first C5 commit. -/
def c5db1 : DB :=
  { products := [],
    transactions :=
      [{ trans_id := "TXN-20250101103000-aaaa1111",
         timestamp := "t1",
         customer_name := "A",
         subtotal := 100,
         tax_amount := 18,
         total := 118,
         utr := "utr1",
         exit_code := "EXIT-20250101103000",
         status := "completed" }],
    transaction_items :=
      [{ trans_id := "TXN-20250101103000-aaaa1111",
         product_id := 1,
         qty := 1,
         unit_price := 100,
         line_total := 100 }] }

/-- Catalog product for the concrete C6 instance. -/
def c6prod : Product :=
  { product_id := 7, barcode := "B7", product_name := "Tea", brand := "Chai",
    category := "Grocery", price := 50, stock_quantity := 3,
    description := "", image_url := "", created_at := "", updated_at := "" }

/-- The database component of the `load_products_from_csv` fold. -/
def loadDB (db : DB) (rows : List CsvRow) : DB :=
  rows.foldl (fun d r =>
    match csv_insert_row d r with
    | some d2 => d2
    | none => d) db

/-- A valid catalog row for the concrete C10 load. -/
def c10row1 : CsvRow :=
  ⟨some 1, "B1", "P1", "Br", "Cat", some 10, some 5, "", "", "", ""⟩

/-- The row with the missing price for the concrete C10 load. -/
def c10bad : CsvRow :=
  ⟨some 2, "B2", "P2", "Br", "Cat", none, some 5, "", "", "", ""⟩

/-- A second valid catalog row for the concrete C10 load. -/
def c10row3 : CsvRow :=
  ⟨some 3, "B3", "P3", "Br", "Cat", some 30, some 5, "", "", "", ""⟩


/-!
## Helper lemmas about `pyStrip`
-/

theorem dropWhile_eq_self_of_all {p : α → Bool} {l : List α}
    (h : ∀ a ∈ l, p a = false) : l.dropWhile p = l := by
  cases l with
  | nil => rfl
  | cons a t => exact List.dropWhile_cons_of_neg (by simp [h a (List.mem_cons_self a t)])

theorem pyStripList_of_no_space {l : List Char}
    (h : ∀ c ∈ l, isPySpace c = false) : pyStripList l = l := by
  unfold pyStripList
  rw [dropWhile_eq_self_of_all h,
    dropWhile_eq_self_of_all (fun c hc => h c (List.mem_reverse.mp hc)), List.reverse_reverse]

theorem pyStrip_of_no_space {s : String}
    (h : ∀ c ∈ s.data, isPySpace c = false) : pyStrip s = s := by
  apply String.ext
  show pyStripList s.data = s.data
  exact pyStripList_of_no_space h

theorem isPySpace_eq_false_of_isDigit {c : Char} (h : c.isDigit = true) :
    isPySpace c = false := by
  cases hb : isPySpace c
  · rfl
  · unfold isPySpace at hb
    simp only [Bool.or_eq_true, decide_eq_true_eq] at hb
    rcases hb with ((((h1 | h1) | h1) | h1) | h1) | h1 <;>
      (subst h1; exact absurd h (by decide))

theorem pyStrip_exit_code {ts : String} (h : ∀ c ∈ ts.data, c.isDigit = true) :
    pyStrip ("EXIT-" ++ ts) = "EXIT-" ++ ts := by
  apply pyStrip_of_no_space
  intro c hc
  rw [String.data_append, List.mem_append] at hc
  rcases hc with hc | hc
  · revert hc
    show c ∈ ['E', 'X', 'I', 'T', '-'] → isPySpace c = false
    intro hc
    fin_cases hc <;> rfl
  · exact isPySpace_eq_false_of_isDigit (h c hc)

theorem dropWhile_dropWhile {p : α → Bool} (l : List α) :
    (l.dropWhile p).dropWhile p = l.dropWhile p := by
  induction l with
  | nil => rfl
  | cons a t ih =>
      by_cases hp : p a = true
      · rw [List.dropWhile_cons_of_pos hp]; exact ih
      · rw [List.dropWhile_cons_of_neg (by simp [hp]),
          List.dropWhile_cons_of_neg (by simp [hp])]

theorem getLast?_dropWhile {p : α → Bool} {l : List α}
    (h : l.dropWhile p ≠ []) : (l.dropWhile p).getLast? = l.getLast? := by
  induction l with
  | nil => rfl
  | cons a t ih =>
      by_cases hp : p a = true
      · rw [List.dropWhile_cons_of_pos hp] at h ⊢
        rw [ih h]
        have ht : t ≠ [] := by
          intro he; rw [he] at h; exact h rfl
        cases t with
        | nil => exact absurd rfl ht
        | cons b u => simp [List.getLast?_cons_cons]
      · rw [List.dropWhile_cons_of_neg (by simp [hp])]

theorem dropWhile_eq_self_of_head? {p : α → Bool} {l : List α}
    (h : ∀ a, l.head? = some a → p a = false) : l.dropWhile p = l := by
  cases l with
  | nil => rfl
  | cons a t => exact List.dropWhile_cons_of_neg (by simp [h a rfl])

theorem head?_dropWhile_eq_false {p : α → Bool} {l : List α} {a : α}
    (h : (l.dropWhile p).head? = some a) : p a = false := by
  have := List.head?_dropWhile_not p l
  rw [h] at this
  exact this

theorem pyStripList_idem (l : List Char) :
    pyStripList (pyStripList l) = pyStripList l := by
  unfold pyStripList
  set u := l.dropWhile isPySpace with hu
  set v := u.reverse.dropWhile isPySpace with hv
  rcases heq : v with _ | _
  · simp [heq]
  rw [← heq]
  have hvne : v ≠ [] := by rw [heq]; simp
  have h1 : v.reverse.dropWhile isPySpace = v.reverse := by
    apply dropWhile_eq_self_of_head?
    intro a ha
    rw [List.head?_reverse] at ha
    rw [hv, getLast?_dropWhile (hv ▸ hvne), List.getLast?_reverse] at ha
    exact head?_dropWhile_eq_false (hu ▸ ha)
  rw [h1, List.reverse_reverse, hv, dropWhile_dropWhile]

theorem pyStrip_data (s : String) : (pyStrip s).data = pyStripList s.data := rfl

theorem pyStrip_idem (s : String) : pyStrip (pyStrip s) = pyStrip s := by
  apply String.ext
  show pyStripList (pyStripList s.data) = pyStripList s.data
  exact pyStripList_idem s.data

theorem pyStripList_exit_colon (r : List Char) :
    ∃ r', pyStripList ('E' :: 'X' :: 'I' :: 'T' :: ':' :: r) =
      'E' :: 'X' :: 'I' :: 'T' :: ':' :: r' := by
  unfold pyStripList
  rw [List.dropWhile_cons_of_neg (by decide)]
  have hrev : ('E' :: 'X' :: 'I' :: 'T' :: ':' :: r).reverse =
      r.reverse ++ [':', 'T', 'I', 'X', 'E'] := by simp
  rw [hrev, List.dropWhile_append]
  by_cases he : (r.reverse.dropWhile isPySpace).isEmpty
  · rw [if_pos he]
    exact ⟨[], by decide⟩
  · rw [if_neg he]
    refine ⟨(r.reverse.dropWhile isPySpace).reverse, ?_⟩
    simp

/-- No string of the shape `EXIT-…` equals a string of the shape `EXIT:…`. -/
theorem exit_dash_ne_exit_colon (u : String) (r' : List Char) :
    "EXIT-" ++ u ≠ String.mk ('E' :: 'X' :: 'I' :: 'T' :: ':' :: r') := by
  intro h
  have hd := congrArg String.data h
  rw [String.data_append] at hd
  have h5 : "EXIT-".data = ['E', 'X', 'I', 'T', '-'] := rfl
  rw [h5] at hd
  have hmk : (String.mk ('E' :: 'X' :: 'I' :: 'T' :: ':' :: r')).data =
      'E' :: 'X' :: 'I' :: 'T' :: ':' :: r' := rfl
  rw [hmk] at hd
  simp only [List.cons_append, List.nil_append] at hd
  injection hd with _ hd; injection hd with _ hd; injection hd with _ hd
  injection hd with _ hd; injection hd with h5' _
  exact absurd h5' (by decide)

/-!
## Helper lemmas about `save_transaction`
-/

theorem save_transaction_ok {db : DB} {cn : String} {items : List CartItem}
    {sb txa tot : Rat} {utr ts rand iso : String} {db' : DB} {tid ec : String}
    (h : save_transaction db cn items sb txa tot utr ts rand iso =
      Except.ok (db', tid, ec)) :
    tid = "TXN-" ++ ts ++ "-" ++ rand ∧ ec = "EXIT-" ++ ts ∧
    (∀ t ∈ db.transactions, t.trans_id ≠ tid) ∧
    (∀ t ∈ db.transactions, t.exit_code ≠ ec) ∧
    db' = { db with
            transactions := db.transactions ++ [savedTransRow cn sb txa tot utr ts rand iso],
            transaction_items := db.transaction_items ++ items.map (savedItemRow ts rand) } := by
  unfold save_transaction at h
  simp only [] at h
  by_cases h1 : (db.transactions.any fun t =>
      decide (t.trans_id = "TXN-" ++ ts ++ "-" ++ rand)) = true
  · rw [if_pos h1] at h
    exact absurd h (by simp)
  rw [if_neg h1] at h
  by_cases h2 : (db.transactions.any fun t => decide (t.exit_code = "EXIT-" ++ ts)) = true
  · rw [if_pos h2] at h
    exact absurd h (by simp)
  rw [if_neg h2] at h
  simp only [Except.ok.injEq, Prod.mk.injEq] at h
  obtain ⟨hdb, htid, hec⟩ := h
  rw [Bool.not_eq_true, List.any_eq_false] at h1 h2
  refine ⟨htid.symm, hec.symm, ?_, ?_, ?_⟩
  · intro t ht
    rw [← htid]
    simpa using h1 t ht
  · intro t ht
    rw [← hec]
    simpa using h2 t ht
  · rw [← hdb]
    rfl

/-!
## C3 — the exit-pass QR payload never matches its own transaction
-/

/-- C3: for every transaction committed by `process_payment` (into a store
whose exit codes all carry the generated `EXIT-` shape), looking up the
exit-pass QR payload string `EXIT:<exitCode>|TOTAL:<amount>|TXN:<transactionId>`
via `get_transaction_by_exit_code` returns not-found: the lookup compares the
whole (trimmed) payload against the stored exit code, which is only
`EXIT-<timestamp>`, so a camera scan of a system-generated exit pass never
matches its own transaction. -/
theorem qr_payload_lookup_not_found
    (db : DB) (cn : String) (items : List CartItem) (sb txa tot amount : Rat)
    (utr ts rand iso : String) (db' : DB) (tid ec : String)
    (hinv : ∀ t ∈ db.transactions, ∃ u, t.exit_code = "EXIT-" ++ u)
    (hsave : save_transaction db cn items sb txa tot utr ts rand iso =
      Except.ok (db', tid, ec)) :
    get_transaction_by_exit_code db' (exit_qr_payload ec amount tid) = none := by
  obtain ⟨htid, hec, hfresh1, hfresh2, hdb'⟩ := save_transaction_ok hsave
  have htr : db'.transactions =
      db.transactions ++ [savedTransRow cn sb txa tot utr ts rand iso] := by
    rw [hdb']
  obtain ⟨r', hstr⟩ : ∃ r', pyStrip (exit_qr_payload ec amount tid) =
      String.mk ('E' :: 'X' :: 'I' :: 'T' :: ':' :: r') := by
    have hpd : (exit_qr_payload ec amount tid).data =
        'E' :: 'X' :: 'I' :: 'T' :: ':' ::
          (ec.data ++ ("|TOTAL:".data ++ ((fmt2 amount).data ++
            ("|TXN:".data ++ tid.data)))) := by
      show ("EXIT:" ++ ec ++ "|TOTAL:" ++ fmt2 amount ++ "|TXN:" ++ tid).data = _
      have h5 : "EXIT:".data = ['E', 'X', 'I', 'T', ':'] := rfl
      simp only [String.data_append, List.append_assoc, h5, List.cons_append,
        List.nil_append]
    obtain ⟨r', hr'⟩ := pyStripList_exit_colon
      (ec.data ++ ("|TOTAL:".data ++ ((fmt2 amount).data ++ ("|TXN:".data ++ tid.data))))
    refine ⟨r', ?_⟩
    show String.mk (pyStripList (exit_qr_payload ec amount tid).data) = _
    rw [hpd, hr']
  have hnone : db'.transactions.find?
      (fun t => t.exit_code = pyStrip (exit_qr_payload ec amount tid)) = none := by
    rw [List.find?_eq_none]
    intro t ht
    simp only [decide_eq_true_eq]
    rw [hstr]
    have hshape : ∃ u, t.exit_code = "EXIT-" ++ u := by
      rw [htr] at ht
      rcases List.mem_append.mp ht with ht | ht
      · exact hinv t ht
      · rw [List.mem_singleton.mp ht]
        exact ⟨ts, rfl⟩
    obtain ⟨u, hu⟩ := hshape
    rw [hu]
    exact exit_dash_ne_exit_colon u r'
  unfold get_transaction_by_exit_code
  rw [hnone]

/-- Witness for C3 at a concrete commit. -/
theorem qr_payload_lookup_not_found_witness :
    get_transaction_by_exit_code c3db1
      (exit_qr_payload "EXIT-20250101120000" (118 : Rat)
        "TXN-20250101120000-abcd1234") = none :=
  qr_payload_lookup_not_found ⟨[], [], []⟩ "A" [⟨1, 1, 100, 100⟩] 100 18 118 118
    "u" "20250101120000" "abcd1234" "iso" c3db1
    "TXN-20250101120000-abcd1234" "EXIT-20250101120000"
    (by intro t ht; exact absurd ht (List.not_mem_nil t)) (by rfl)

/-!
## C1 — commit followed by lookup on the returned exit code
-/

theorem filterMap_join_of_saved (ps : List Product) (ts rand tid0 : String)
    (htid0 : tid0 = "TXN-" ++ ts ++ "-" ++ rand) (l : List CartItem)
    (hp : ∀ ci ∈ l, ∃ p ∈ ps, p.product_id = ci.product_id) :
    ∃ js : List JoinedItem,
      (l.map (savedItemRow ts rand)).filterMap (fun ti =>
          if ti.trans_id = tid0 then
            (ps.find? (fun p => p.product_id = ti.product_id)).map fun p =>
              ({ product_id := ti.product_id, product_name := p.product_name,
                 brand := p.brand, qty := ti.qty, unit_price := ti.unit_price,
                 line_total := ti.line_total } : JoinedItem)
          else none) = js
      ∧ js.length = l.length
      ∧ js.map JoinedItem.line_total = l.map CartItem.line_total
      ∧ js.map JoinedItem.qty = l.map CartItem.qty := by
  induction l with
  | nil => exact ⟨[], rfl, rfl, rfl, rfl⟩
  | cons ci rest ih =>
      obtain ⟨js, hjs, hlen, hlt, hqty⟩ :=
        ih (fun c hc => hp c (List.mem_cons_of_mem ci hc))
      obtain ⟨p, hpmem, hpid⟩ := hp ci (List.mem_cons_self ci rest)
      obtain ⟨p0, hp0⟩ := Option.isSome_iff_exists.mp
        (show (ps.find? (fun q =>
            decide (q.product_id = (savedItemRow ts rand ci).product_id))).isSome from
          List.find?_isSome.mpr ⟨p, hpmem, by
            rw [show (savedItemRow ts rand ci).product_id = ci.product_id from rfl, ← hpid]
            simp⟩)
      refine ⟨({ product_id := (savedItemRow ts rand ci).product_id,
                 product_name := p0.product_name, brand := p0.brand,
                 qty := (savedItemRow ts rand ci).qty,
                 unit_price := (savedItemRow ts rand ci).unit_price,
                 line_total := (savedItemRow ts rand ci).line_total } : JoinedItem)
              :: js, ?_, ?_, ?_, ?_⟩
      · rw [List.map_cons, List.filterMap_cons,
          if_pos (show (savedItemRow ts rand ci).trans_id = tid0 by rw [htid0]; rfl),
          hp0]
        rw [Option.map_some', hjs]
      · rw [List.length_cons, List.length_cons, hlen]
      · rw [List.map_cons, List.map_cons, hlt]
        rfl
      · rw [List.map_cons, List.map_cons, hqty]
        rfl

/-- C1: committing a non-empty list of cart items via `save_transaction` and
then looking up the returned exit code with `get_transaction_by_exit_code`
returns a transaction whose stored total (and subtotal and tax) equal the
committed amounts, with one joined item per committed cart line carrying
exactly the committed line totals.  The hypotheses record the context of the
application flow: the timestamp is a digit string, stored item rows belong to
stored transactions, and every cart item's product is in the catalog. -/
theorem commit_then_lookup_roundtrip
    (db : DB) (cn : String) (cart_items : List CartItem) (sb txa tot : Rat)
    (utr ts rand iso : String) (db' : DB) (tid ec : String)
    (_hne : cart_items ≠ [])
    (hts : ∀ c ∈ ts.data, c.isDigit = true)
    (hfk : ∀ it ∈ db.transaction_items, ∃ t ∈ db.transactions, it.trans_id = t.trans_id)
    (hprod : ∀ ci ∈ cart_items, ∃ p ∈ db.products, p.product_id = ci.product_id)
    (hsave : save_transaction db cn cart_items sb txa tot utr ts rand iso =
      Except.ok (db', tid, ec)) :
    ∃ td js, get_transaction_by_exit_code db' ec = some (td, js)
      ∧ td.total = tot ∧ td.subtotal = sb ∧ td.tax_amount = txa
      ∧ js.length = cart_items.length
      ∧ js.map JoinedItem.line_total = cart_items.map CartItem.line_total := by
  obtain ⟨htid, hec, hfresh_t, hfresh_e, hdb'⟩ := save_transaction_ok hsave
  have htr : db'.transactions =
      db.transactions ++ [savedTransRow cn sb txa tot utr ts rand iso] := by rw [hdb']
  have hti : db'.transaction_items =
      db.transaction_items ++ cart_items.map (savedItemRow ts rand) := by rw [hdb']
  have hps : db'.products = db.products := by rw [hdb']
  have hstrip : pyStrip ec = ec := by rw [hec]; exact pyStrip_exit_code hts
  have hfind : db'.transactions.find? (fun t => t.exit_code = pyStrip ec) =
      some (savedTransRow cn sb txa tot utr ts rand iso) := by
    rw [htr, List.find?_append]
    have h1 : db.transactions.find? (fun t => t.exit_code = pyStrip ec) = none := by
      rw [List.find?_eq_none]
      intro t ht
      simp only [decide_eq_true_eq]
      rw [hstrip]
      exact hfresh_e t ht
    rw [h1, Option.none_or]
    rw [List.find?_singleton, if_pos]
    simp only [decide_eq_true_eq]
    rw [hstrip, hec]
    rfl
  have hold : db.transaction_items.filterMap (fun ti =>
      if ti.trans_id = (savedTransRow cn sb txa tot utr ts rand iso).trans_id then
        (db.products.find? (fun p => p.product_id = ti.product_id)).map fun p =>
          ({ product_id := ti.product_id, product_name := p.product_name,
             brand := p.brand, qty := ti.qty, unit_price := ti.unit_price,
             line_total := ti.line_total } : JoinedItem)
      else none) = [] := by
    rw [List.filterMap_eq_nil_iff]
    intro it hit
    obtain ⟨t0, ht0, heq⟩ := hfk it hit
    rw [if_neg]
    rw [heq]
    have := hfresh_t t0 ht0
    rw [htid] at this
    exact this
  obtain ⟨js, hjs, hlen, hlt, _⟩ := filterMap_join_of_saved db.products ts rand
    (savedTransRow cn sb txa tot utr ts rand iso).trans_id rfl cart_items hprod
  have hlook : get_transaction_by_exit_code db' ec =
      some ({ trans_id := "TXN-" ++ ts ++ "-" ++ rand, timestamp := iso,
              customer_name := if cn = "" then "Anonymous" else cn,
              subtotal := sb, tax_amount := txa, total := tot, utr := utr }, js) := by
    simp only [get_transaction_by_exit_code, hfind]
    rw [hti, hps, List.filterMap_append, hold, hjs, List.nil_append]
    rfl
  exact ⟨_, js, hlook, rfl, rfl, rfl, hlen, hlt⟩

/-- Witness for C1 at a concrete commit. -/
theorem commit_then_lookup_roundtrip_witness :
    ∃ td js, get_transaction_by_exit_code c1db1 "EXIT-20250101120000" = some (td, js)
      ∧ td.total = 118 ∧ td.subtotal = 100 ∧ td.tax_amount = 18
      ∧ js.length = ([⟨1, 1, 100, 100⟩] : List CartItem).length
      ∧ js.map JoinedItem.line_total =
          ([⟨1, 1, 100, 100⟩] : List CartItem).map CartItem.line_total :=
  commit_then_lookup_roundtrip ⟨[c1prod], [], []⟩ "A" [⟨1, 1, 100, 100⟩] 100 18 118
    "u" "20250101120000" "abcd1234" "iso" c1db1
    "TXN-20250101120000-abcd1234" "EXIT-20250101120000"
    (by simp) (by decide)
    (by intro it hit; exact absurd hit (List.not_mem_nil it))
    (by intro ci hci; exact ⟨c1prod, List.mem_singleton.mpr rfl, by
      rw [List.mem_singleton.mp hci]; rfl⟩)
    (by rfl)

/-!
## C2 — tax and total of the cart summary
-/

/-- C2 counterexample: the tax computed at payment is `subtotal * TAX_RATE`
with no rounding, so it differs from `round(subtotal * 0.18, 2)` whenever the
product has more than two decimals — e.g. for a cart holding one ₹1.11 item. -/
theorem summary_tax_not_rounded_counterexample :
    (process_payment_summary c2cart).tax_amount ≠
      pyRound2 ((process_payment_summary c2cart).subtotal * TAX_RATE) := by
  have hsub : (process_payment_summary c2cart).subtotal = 111/100 := by
    simp [process_payment_summary, c2cart]
  have htax : (process_payment_summary c2cart).tax_amount = 999/5000 := by
    show (process_payment_summary c2cart).subtotal * TAX_RATE = 999/5000
    rw [hsub]
    unfold TAX_RATE
    norm_num
  have hfl : ⌊((999 : Rat)/50)⌋ = 19 := by
    rw [Int.floor_eq_iff]
    norm_num
  have hr999 : roundHalfEven ((999 : Rat)/50) = 20 := by
    simp only [roundHalfEven]
    rw [hfl]
    norm_num
  have hpr : pyRound2 ((process_payment_summary c2cart).subtotal * TAX_RATE) = 1/5 := by
    unfold pyRound2
    rw [show (process_payment_summary c2cart).subtotal * TAX_RATE * 100 = (999 : Rat)/50 by
      rw [hsub]; unfold TAX_RATE; norm_num]
    rw [hr999]
    norm_num
  rw [htax, hpr]
  norm_num

/-- C2 amended: for every cart, the summary computed at payment satisfies
`tax == subtotal * 0.18` exactly (no two-decimal rounding is applied) and
`total == subtotal + tax`, where `subtotal` is the sum over cart lines of
unit price times quantity; `display_cart` computes the identical summary. -/
theorem summary_tax_unrounded (cart : Cart) :
    (process_payment_summary cart).tax_amount =
      (process_payment_summary cart).subtotal * TAX_RATE
  ∧ (process_payment_summary cart).total =
      (process_payment_summary cart).subtotal + (process_payment_summary cart).tax_amount
  ∧ (process_payment_summary cart).subtotal =
      (cart.map (fun e => e.2.price * (e.2.qty : Rat))).foldl (· + ·) 0
  ∧ display_cart_summary cart = process_payment_summary cart := by
  refine ⟨rfl, rfl, rfl, ?_⟩
  unfold display_cart_summary process_payment_summary
  rw [List.foldl_map]

/-!
## C4 — prefix gating of exit verification
-/

/-- The lookup ignores surrounding whitespace of its argument, because it
strips the code itself. -/
theorem verify_exit_code_strip (db : DB) (code : String) :
    verify_exit_code db (pyStrip code) = verify_exit_code db code := by
  unfold verify_exit_code get_transaction_by_exit_code
  rw [pyStrip_idem]

/-- C4 counterexample: on the manual-entry path the lookup is attempted for
a code matching neither prefix — `"FOO"` is looked up and reported as an
invalid-code error rather than being treated as not-applicable. -/
theorem manual_exit_no_prefix_gate_counterexample :
    (pyStartsWith "FOO" "EXIT:" = false ∧ pyStartsWith "FOO" "EXIT-" = false)
  ∧ manual_exit_check ⟨[], [], []⟩ "FOO" = ExitOutcome.denied := by
  exact ⟨⟨rfl, rfl⟩, rfl⟩

/-- C4 amended: on the scanned path, the raw decoded code (not a trimmed
copy) must start with `EXIT:` or `EXIT-` for a lookup to be attempted, and
non-matching codes are skipped silently; whitespace is stripped only inside
the lookup itself.  On the manual path there is no prefix requirement: every
non-empty code triggers a lookup (a miss is reported as an error), and only
the empty entry is ignored. -/
theorem exit_verification_gating (db : DB) (code : String) :
    (pyStartsWith code "EXIT:" = false ∧ pyStartsWith code "EXIT-" = false →
        scanned_exit_check db code = ExitOutcome.notApplicable)
  ∧ (pyStartsWith code "EXIT:" = true ∨ pyStartsWith code "EXIT-" = true →
        scanned_exit_check db code = verify_exit_code db (pyStrip code))
  ∧ (code ≠ "" → manual_exit_check db code = verify_exit_code db (pyStrip code))
  ∧ (code = "" → manual_exit_check db code = ExitOutcome.notApplicable) := by
  refine ⟨?_, ?_, ?_, ?_⟩
  · intro h
    unfold scanned_exit_check
    rw [if_neg]
    simp [h.1, h.2]
  · intro h
    unfold scanned_exit_check
    rw [if_pos, verify_exit_code_strip]
    rcases h with h | h <;> simp [h]
  · intro h
    unfold manual_exit_check
    rw [if_neg h, verify_exit_code_strip]
  · intro h
    unfold manual_exit_check
    rw [if_pos h]

/-- Witness for the amended C4 at concrete codes on an empty store. -/
theorem exit_verification_gating_witness :
    scanned_exit_check ⟨[], [], []⟩ "ABC" = ExitOutcome.notApplicable
  ∧ scanned_exit_check ⟨[], [], []⟩ "EXIT-1" =
      verify_exit_code ⟨[], [], []⟩ (pyStrip "EXIT-1")
  ∧ manual_exit_check ⟨[], [], []⟩ "ABC" =
      verify_exit_code ⟨[], [], []⟩ (pyStrip "ABC")
  ∧ manual_exit_check ⟨[], [], []⟩ "" = ExitOutcome.notApplicable :=
  ⟨(exit_verification_gating ⟨[], [], []⟩ "ABC").1 ⟨rfl, rfl⟩,
   (exit_verification_gating ⟨[], [], []⟩ "EXIT-1").2.1 (Or.inr rfl),
   (exit_verification_gating ⟨[], [], []⟩ "ABC").2.2.1 (by decide),
   (exit_verification_gating ⟨[], [], []⟩ "").2.2.2 rfl⟩

/-!
## C5 — exit-code generation and duplicate handling
-/

/-- C5 counterexample: two commits within the same second carry different
random suffixes in their transaction ids, yet generate the *same* exit code
(`EXIT-<timestamp>` has no random component), so the second commit fails on
the exit-code unique constraint — the collision is deterministic, not a
near-zero-probability event. -/
theorem same_second_exit_codes_collide_counterexample :
    save_transaction ⟨[], [], []⟩ "A" [c5item] 100 18 118 "utr1"
        "20250101103000" "aaaa1111" "t1" =
      Except.ok (c5db1, "TXN-20250101103000-aaaa1111", "EXIT-20250101103000")
  ∧ save_transaction c5db1 "B" [c5item] 100 18 118 "utr2"
        "20250101103000" "bbbb2222" "t2" =
      Except.error "UNIQUE constraint failed: transactions.exit_code" := by
  exact ⟨rfl, rfl⟩

/-- C5 amended: the generated exit code is `EXIT-<timestamp>` and carries no
random component — the random suffix appears only in the transaction id
`TXN-<timestamp>-<suffix>`.  Exit codes of commits in distinct seconds are
distinct, but two commits within the same second always generate the same
exit code; the resulting unique-constraint violation is surfaced to the
caller as an error (the transaction is not committed), never silently
retried. -/
theorem exit_code_generation (db : DB) (cn : String) (items : List CartItem)
    (sb txa tot : Rat) (utr ts rand iso : String) :
    (∀ db' tid ec, save_transaction db cn items sb txa tot utr ts rand iso =
        Except.ok (db', tid, ec) →
        ec = "EXIT-" ++ ts ∧ tid = "TXN-" ++ ts ++ "-" ++ rand)
  ∧ (∀ ts' : String, "EXIT-" ++ ts = "EXIT-" ++ ts' → ts = ts')
  ∧ ((∀ t ∈ db.transactions, t.trans_id ≠ "TXN-" ++ ts ++ "-" ++ rand) →
      (∃ t ∈ db.transactions, t.exit_code = "EXIT-" ++ ts) →
        save_transaction db cn items sb txa tot utr ts rand iso =
          Except.error "UNIQUE constraint failed: transactions.exit_code") := by
  refine ⟨?_, ?_, ?_⟩
  · intro db' tid ec h
    obtain ⟨htid, hec, -, -, -⟩ := save_transaction_ok h
    exact ⟨hec, htid⟩
  · intro ts' h
    have := congrArg String.data h
    rw [String.data_append, String.data_append] at this
    exact String.ext (List.append_cancel_left this)
  · intro hid hex
    obtain ⟨t, ht, hecode⟩ := hex
    have h1 : (db.transactions.any fun t' =>
        decide (t'.trans_id = "TXN-" ++ ts ++ "-" ++ rand)) = false := by
      rw [List.any_eq_false]
      intro t' ht'
      simp [hid t' ht']
    have h2 : (db.transactions.any fun t' =>
        decide (t'.exit_code = "EXIT-" ++ ts)) = true :=
      List.any_eq_true.mpr ⟨t, ht, by simp [hecode]⟩
    simp only [save_transaction]
    rw [if_neg (by rw [h1]; simp), if_pos h2]

/-- Witness for the amended C5 at the concrete same-second commits. -/
theorem exit_code_generation_witness :
    ("EXIT-20250101103000" = "EXIT-" ++ "20250101103000"
      ∧ "TXN-20250101103000-aaaa1111" = "TXN-" ++ "20250101103000" ++ "-" ++ "aaaa1111")
  ∧ save_transaction c5db1 "B" [c5item] 100 18 118 "utr2"
      "20250101103000" "bbbb2222" "t2" =
      Except.error "UNIQUE constraint failed: transactions.exit_code" :=
  ⟨(exit_code_generation ⟨[], [], []⟩ "A" [c5item] 100 18 118 "utr1"
      "20250101103000" "aaaa1111" "t1").1 c5db1
      "TXN-20250101103000-aaaa1111" "EXIT-20250101103000" rfl,
   (exit_code_generation c5db1 "B" [c5item] 100 18 118 "utr2"
      "20250101103000" "bbbb2222" "t2").2.2 (by decide)
      ⟨{ trans_id := "TXN-20250101103000-aaaa1111", timestamp := "t1",
         customer_name := "A", subtotal := 100, tax_amount := 18, total := 118,
         utr := "utr1", exit_code := "EXIT-20250101103000", status := "completed" },
       by decide, by decide⟩⟩

/-!
## C6 — repeat scans accumulate quantity on a single cart line
-/

/-- C6: for a cart without the barcode and a barcode present in the catalog,
the first `add_item_to_cart` appends a single line at quantity 1, and adding
the same barcode again leaves exactly one line for it, now at quantity 2 —
the cart grows by one line in total, not two. -/
theorem add_same_barcode_twice
    (db : DB) (cart : Cart) (barcode : String) (p : ProductInfo)
    (hfound : get_product_by_barcode db barcode = some p)
    (hnot : ∀ e ∈ cart, e.1 ≠ barcode) :
    add_item_to_cart db cart barcode = cart ++ [(barcode, newCartEntry p)]
  ∧ (add_item_to_cart db (add_item_to_cart db cart barcode) barcode).filter
      (fun e => e.1 = barcode) = [(barcode, { newCartEntry p with qty := 2 })]
  ∧ (add_item_to_cart db (add_item_to_cart db cart barcode) barcode).length
      = cart.length + 1 := by
  have hany : (cart.any fun e => decide (e.1 = barcode)) = false := by
    rw [List.any_eq_false]
    intro e he
    simp [hnot e he]
  have h1 : add_item_to_cart db cart barcode = cart ++ [(barcode, newCartEntry p)] := by
    simp only [add_item_to_cart, hfound]
    rw [if_neg (by rw [hany]; simp)]
  have hany2 : ((cart ++ [(barcode, newCartEntry p)]).any
      fun e => decide (e.1 = barcode)) = true := by
    rw [List.any_eq_true]
    exact ⟨(barcode, newCartEntry p), by simp, by simp⟩
  have h2 : add_item_to_cart db (cart ++ [(barcode, newCartEntry p)]) barcode =
      cart ++ [(barcode, { newCartEntry p with qty := 2 })] := by
    simp only [add_item_to_cart, hfound]
    rw [if_pos hany2, List.map_append]
    have hmap : cart.map (fun e =>
        if e.1 = barcode then (e.1, { e.2 with qty := e.2.qty + 1 }) else e) = cart := by
      have hcongr : cart.map (fun e =>
          if e.1 = barcode then (e.1, { e.2 with qty := e.2.qty + 1 }) else e) =
          cart.map id :=
        List.map_congr_left (fun e he => by rw [if_neg (hnot e he)]; rfl)
      rw [hcongr, List.map_id]
    rw [hmap, List.map_cons, if_pos rfl]
    rfl
  refine ⟨h1, ?_, ?_⟩
  · rw [h1, h2, List.filter_append]
    have hfc : cart.filter (fun e => decide (e.1 = barcode)) = [] := by
      rw [List.filter_eq_nil_iff]
      intro e he
      simp [hnot e he]
    rw [hfc, List.nil_append]
    simp
  · rw [h1, h2]
    simp

/-- Witness for C6: scanning barcode `B7` twice into an empty cart. -/
theorem add_same_barcode_twice_witness :
    add_item_to_cart ⟨[c6prod], [], []⟩ [] "B7" =
      [] ++ [("B7", newCartEntry ⟨7, "B7", "Tea", "Chai", "Grocery", 50, 3⟩)]
  ∧ (add_item_to_cart ⟨[c6prod], [], []⟩
        (add_item_to_cart ⟨[c6prod], [], []⟩ [] "B7") "B7").filter
      (fun e => e.1 = "B7") =
      [("B7", { newCartEntry ⟨7, "B7", "Tea", "Chai", "Grocery", 50, 3⟩ with qty := 2 })]
  ∧ (add_item_to_cart ⟨[c6prod], [], []⟩
        (add_item_to_cart ⟨[c6prod], [], []⟩ [] "B7") "B7").length
      = List.length ([] : Cart) + 1 :=
  add_same_barcode_twice ⟨[c6prod], [], []⟩ [] "B7"
    ⟨7, "B7", "Tea", "Chai", "Grocery", 50, 3⟩ (by rfl)
    (by intro e he; exact absurd he (List.not_mem_nil e))

/-!
## C7 — lookup of a never-issued code
-/

/-- C7: `get_transaction_by_exit_code` on a code whose trimmed form matches
no stored exit code returns not-found (it is a total function, so it never
throws, and being a pure read it leaves the store untouched); moreover lookup
of any code behaves identically to lookup of its trimmed form. -/
theorem lookup_unissued_not_found (db : DB) (code : String)
    (hnew : ∀ t ∈ db.transactions, t.exit_code ≠ pyStrip code) :
    get_transaction_by_exit_code db code = none
  ∧ ∀ c : String, get_transaction_by_exit_code db c =
      get_transaction_by_exit_code db (pyStrip c) := by
  constructor
  · unfold get_transaction_by_exit_code
    rw [List.find?_eq_none.mpr (fun t ht => by simpa using hnew t ht)]
  · intro c
    unfold get_transaction_by_exit_code
    rw [pyStrip_idem]

/-- Witness for C7: an unknown code on an empty store. -/
theorem lookup_unissued_not_found_witness :
    get_transaction_by_exit_code ⟨[], [], []⟩ "EXIT-NEVERISSUED" = none
  ∧ ∀ c : String, get_transaction_by_exit_code ⟨[], [], []⟩ c =
      get_transaction_by_exit_code ⟨[], [], []⟩ (pyStrip c) :=
  lookup_unissued_not_found ⟨[], [], []⟩ "EXIT-NEVERISSUED"
    (by intro t ht; exact absurd ht (List.not_mem_nil t))

/-!
## C8 — a catalog miss leaves the cart unchanged
-/

/-- C8: when no catalog product matches the (trimmed) barcode,
`add_item_to_cart` fails with the product-not-found message and the cart is
completely unchanged. -/
theorem scan_miss_cart_unchanged (db : DB) (cart : Cart) (barcode : String)
    (hmiss : ∀ p ∈ db.products, p.barcode ≠ pyStrip barcode) :
    add_item_to_cart db cart barcode = cart := by
  have hfind : get_product_by_barcode db barcode = none := by
    unfold get_product_by_barcode
    rw [List.find?_eq_none.mpr (fun p hp => by simpa using hmiss p hp)]
    rfl
  simp only [add_item_to_cart, hfind]

/-!
## C9 — text and PDF invoices agree on the summary strings
-/

set_option maxHeartbeats 1000000 in
theorem toString_lt100_digits : ∀ m : Nat, m < 100 →
    (toString m).data ≠ [] ∧ ((toString m).data.getLast?.getD '0').isDigit = true := by
  decide

theorem fmt2_ends_digit (x : Rat) :
    ∃ ch, (fmt2 x).data.getLast? = some ch ∧ ch.isDigit = true := by
  obtain ⟨hne, hdig⟩ := toString_lt100_digits ((roundHalfEven (x * 100)).natAbs % 100)
    (Nat.mod_lt _ (by norm_num))
  obtain ⟨ch, hch⟩ : ∃ ch,
      (toString ((roundHalfEven (x * 100)).natAbs % 100)).data.getLast? = some ch := by
    cases hgl : (toString ((roundHalfEven (x * 100)).natAbs % 100)).data.getLast? with
    | none => exact absurd (List.getLast?_eq_none_iff.mp hgl) hne
    | some ch => exact ⟨ch, rfl⟩
  refine ⟨ch, ?_, ?_⟩
  · show ((if roundHalfEven (x * 100) < 0 then "-" else "") ++
        toString ((roundHalfEven (x * 100)).natAbs / 100) ++ "." ++
        (if (roundHalfEven (x * 100)).natAbs % 100 < 10 then "0" else "") ++
        toString ((roundHalfEven (x * 100)).natAbs % 100)).data.getLast? = some ch
    rw [String.data_append, List.getLast?_append, hch, Option.or_some]
  · rw [hch] at hdig
    simpa using hdig

/-- Right-justifying an amount string `Rs. …` pads only with removable
whitespace: stripping the padded rendering recovers the amount string. -/
theorem pyStrip_rjust_rs (x : Rat) (n : Nat) :
    pyStrip (rjust ("Rs. " ++ fmt2 x) n) = "Rs. " ++ fmt2 x := by
  obtain ⟨ch, hch, hdig⟩ := fmt2_ends_digit x
  apply String.ext
  rw [pyStrip_data]
  have hdata : (rjust ("Rs. " ++ fmt2 x) n).data =
      List.replicate (n - ("Rs. " ++ fmt2 x).data.length) ' ' ++ ("Rs. " ++ fmt2 x).data := by
    show (String.mk _ ++ _).data = _
    rw [String.data_append]
  rw [hdata]
  unfold pyStripList
  rw [List.dropWhile_append_of_pos
    (by intro a ha; rw [List.eq_of_mem_replicate ha]; rfl)]
  have hhead : ("Rs. " ++ fmt2 x).data.dropWhile isPySpace = ("Rs. " ++ fmt2 x).data := by
    rw [String.data_append, show "Rs. ".data = ['R', 's', '.', ' '] from rfl,
      List.cons_append]
    exact List.dropWhile_cons_of_neg (by decide)
  rw [hhead]
  have hrev : (("Rs. " ++ fmt2 x).data.reverse).dropWhile isPySpace =
      ("Rs. " ++ fmt2 x).data.reverse := by
    apply dropWhile_eq_self_of_head?
    intro a ha
    rw [List.head?_reverse, String.data_append, List.getLast?_append, hch,
      Option.or_some] at ha
    obtain rfl : ch = a := Option.some.inj ha
    exact isPySpace_eq_false_of_isDigit hdig
  rw [hrev, List.reverse_reverse]

set_option maxRecDepth 4000

set_option maxHeartbeats 1000000

/-- C9: the text invoice and the PDF invoice rendered from the same
transaction report identical subtotal, tax and total strings: the PDF summary
cells carry the labels `Subtotal:` / `Tax (18%):` / `TOTAL:` with the amounts
`Rs. <x.xx>` formatted by the same two-decimal rendering `fmt2`, the text
invoice contains the corresponding three summary lines whose right-justified
amounts strip back to exactly the same amount strings, and both renderings
use the fixed label `Tax (18%)`. -/
theorem invoices_summary_agree (td : TransData) (items : List JoinedItem) :
    ((pdf_summary_cells td).map PdfCell.txt =
      ["Subtotal:", "Rs. " ++ fmt2 td.subtotal, "Tax (18%):",
       "Rs. " ++ fmt2 td.tax_amount, "TOTAL:", "Rs. " ++ fmt2 td.total])
  ∧ pdf_summary_cells td <:+: generate_pdf_invoice td items
  ∧ ("Subtotal: " ++ rjust ("Rs. " ++ fmt2 td.subtotal) 33 ++ "\n").data <:+:
      (generate_text_invoice td items).data
  ∧ ("Tax (18%): " ++ rjust ("Rs. " ++ fmt2 td.tax_amount) 32 ++ "\n").data <:+:
      (generate_text_invoice td items).data
  ∧ ("TOTAL: " ++ rjust ("Rs. " ++ fmt2 td.total) 36 ++ "\n").data <:+:
      (generate_text_invoice td items).data
  ∧ pyStrip (rjust ("Rs. " ++ fmt2 td.subtotal) 33) = "Rs. " ++ fmt2 td.subtotal
  ∧ pyStrip (rjust ("Rs. " ++ fmt2 td.tax_amount) 32) = "Rs. " ++ fmt2 td.tax_amount
  ∧ pyStrip (rjust ("Rs. " ++ fmt2 td.total) 36) = "Rs. " ++ fmt2 td.total := by
  refine ⟨rfl, ?_, ?_, ?_, ?_,
    pyStrip_rjust_rs td.subtotal 33, pyStrip_rjust_rs td.tax_amount 32,
    pyStrip_rjust_rs td.total 36⟩
  · exact ⟨[⟨0, 10, "RETAIL360 INVOICE", 0, 1, "C"⟩,
      ⟨0, 8, "Transaction ID: " ++ td.trans_id, 0, 1, ""⟩,
      ⟨0, 8, "Date: " ++ String.mk (td.timestamp.data.take 19), 0, 1, ""⟩,
      ⟨0, 8, "Customer: " ++ td.customer_name, 0, 1, ""⟩,
      ⟨0, 8, "UTR: " ++ td.utr, 0, 1, ""⟩,
      ⟨80, 8, "Product Name", 1, 0, ""⟩, ⟨30, 8, "Qty", 1, 0, ""⟩,
      ⟨40, 8, "Unit Price", 1, 0, ""⟩, ⟨40, 8, "Total", 1, 0, ""⟩] ++
      (items.map pdf_item_cells).flatten,
      [⟨0, 10, "Thank you for shopping with Retail360!", 0, 1, "C"⟩], rfl⟩
  · refine ⟨("==============================================\n" ++
      "              RETAIL360 INVOICE               \n" ++
      "==============================================\n" ++
      ("Transaction ID: " ++ td.trans_id ++ "\n") ++
      ("Date: " ++ String.mk (td.timestamp.data.take 19) ++ "\n") ++
      ("Customer: " ++ td.customer_name ++ "\n") ++
      ("UTR: " ++ td.utr ++ "\n") ++
      "----------------------------------------------\n" ++
      (ljust "Product Name" 25 ++ " | " ++ rjust "Qty" 4 ++ " | " ++
        rjust "Price" 8 ++ " | " ++ rjust "Total" 8 ++ "\n") ++
      "----------------------------------------------\n" ++
      (items.map text_invoice_item_line).foldl (· ++ ·) "" ++
      "----------------------------------------------\n").data,
      (("Tax (18%): " ++ rjust ("Rs. " ++ fmt2 td.tax_amount) 32 ++ "\n") ++
       "----------------------------------------------\n" ++
       ("TOTAL: " ++ rjust ("Rs. " ++ fmt2 td.total) 36 ++ "\n") ++
       "==============================================\n" ++
       "       Thank you for shopping with us!        \n" ++
       "==============================================\n").data, ?_⟩
    simp [generate_text_invoice, String.data_append, List.append_assoc]
  · refine ⟨("==============================================\n" ++
      "              RETAIL360 INVOICE               \n" ++
      "==============================================\n" ++
      ("Transaction ID: " ++ td.trans_id ++ "\n") ++
      ("Date: " ++ String.mk (td.timestamp.data.take 19) ++ "\n") ++
      ("Customer: " ++ td.customer_name ++ "\n") ++
      ("UTR: " ++ td.utr ++ "\n") ++
      "----------------------------------------------\n" ++
      (ljust "Product Name" 25 ++ " | " ++ rjust "Qty" 4 ++ " | " ++
        rjust "Price" 8 ++ " | " ++ rjust "Total" 8 ++ "\n") ++
      "----------------------------------------------\n" ++
      (items.map text_invoice_item_line).foldl (· ++ ·) "" ++
      "----------------------------------------------\n" ++
      ("Subtotal: " ++ rjust ("Rs. " ++ fmt2 td.subtotal) 33 ++ "\n")).data,
      ("----------------------------------------------\n" ++
       ("TOTAL: " ++ rjust ("Rs. " ++ fmt2 td.total) 36 ++ "\n") ++
       "==============================================\n" ++
       "       Thank you for shopping with us!        \n" ++
       "==============================================\n").data, ?_⟩
    simp [generate_text_invoice, String.data_append, List.append_assoc]
  · refine ⟨("==============================================\n" ++
      "              RETAIL360 INVOICE               \n" ++
      "==============================================\n" ++
      ("Transaction ID: " ++ td.trans_id ++ "\n") ++
      ("Date: " ++ String.mk (td.timestamp.data.take 19) ++ "\n") ++
      ("Customer: " ++ td.customer_name ++ "\n") ++
      ("UTR: " ++ td.utr ++ "\n") ++
      "----------------------------------------------\n" ++
      (ljust "Product Name" 25 ++ " | " ++ rjust "Qty" 4 ++ " | " ++
        rjust "Price" 8 ++ " | " ++ rjust "Total" 8 ++ "\n") ++
      "----------------------------------------------\n" ++
      (items.map text_invoice_item_line).foldl (· ++ ·) "" ++
      "----------------------------------------------\n" ++
      ("Subtotal: " ++ rjust ("Rs. " ++ fmt2 td.subtotal) 33 ++ "\n") ++
      ("Tax (18%): " ++ rjust ("Rs. " ++ fmt2 td.tax_amount) 32 ++ "\n") ++
      "----------------------------------------------\n").data,
      ("==============================================\n" ++
       "       Thank you for shopping with us!        \n" ++
       "==============================================\n").data, ?_⟩
    simp [generate_text_invoice, String.data_append, List.append_assoc]

/-- Witness for C8: a miss on a store whose only product has another barcode. -/
theorem scan_miss_cart_unchanged_witness :
    add_item_to_cart ⟨[c6prod], [], []⟩
      [("B7", newCartEntry ⟨7, "B7", "Tea", "Chai", "Grocery", 50, 3⟩)] "NOPE" =
      [("B7", newCartEntry ⟨7, "B7", "Tea", "Chai", "Grocery", 50, 3⟩)] :=
  scan_miss_cart_unchanged ⟨[c6prod], [], []⟩
    [("B7", newCartEntry ⟨7, "B7", "Tea", "Chai", "Grocery", 50, 3⟩)] "NOPE"
    (by intro p hp; rw [List.mem_singleton.mp hp]; decide)



/-!
## C10 — bulk load with one invalid-price row
-/

theorem csv_insert_row_of_ok {db : DB} {r : CsvRow} {pid : Int} {pr : Rat} {sq : Int}
    (h1 : r.product_id = some pid) (h2 : r.price = some pr)
    (h3 : r.stock_quantity = some sq) :
    csv_insert_row db r =
      some { db with products := upsertProduct db.products (rowProduct r pid pr sq) } := by
  unfold csv_insert_row
  rw [h1, h2, h3]

theorem csv_insert_row_none {db : DB} {r : CsvRow} (h : rowOk r = false) :
    csv_insert_row db r = none := by
  unfold csv_insert_row
  cases hpid : r.product_id <;> cases hpr : r.price <;> cases hsq : r.stock_quantity <;>
    first
      | rfl
      | (exfalso; unfold rowOk at h; rw [hpid, hpr, hsq] at h; simp at h)

theorem rowOk_iff {r : CsvRow} : rowOk r = true ↔
    ∃ pid pr sq, r.product_id = some pid ∧ r.price = some pr ∧
      r.stock_quantity = some sq := by
  unfold rowOk
  constructor
  · intro h
    simp only [Bool.and_eq_true] at h
    obtain ⟨⟨ha, hb⟩, hc⟩ := h
    obtain ⟨pid, h1⟩ := Option.isSome_iff_exists.mp ha
    obtain ⟨pr, h2⟩ := Option.isSome_iff_exists.mp hb
    obtain ⟨sq, h3⟩ := Option.isSome_iff_exists.mp hc
    exact ⟨pid, pr, sq, h1, h2, h3⟩
  · intro h
    obtain ⟨pid, pr, sq, h1, h2, h3⟩ := h
    simp [h1, h2, h3]

theorem rowOk_false_of_price_none {r : CsvRow} (h : r.price = none) :
    rowOk r = false := by
  unfold rowOk
  rw [h]
  simp

theorem load_fold_spec (rows : List CsvRow) : ∀ (db : DB) (c : Nat) (w : List String),
    rows.foldl (fun acc r =>
      match csv_insert_row acc.1 r with
      | some db2 => (db2, acc.2.1 + 1, acc.2.2)
      | none => (acc.1, acc.2.1, acc.2.2 ++ [skip_message r])) (db, c, w)
    = (loadDB db rows, c + rows.countP rowOk,
       w ++ (rows.filter (fun r => !rowOk r)).map skip_message) := by
  induction rows with
  | nil =>
      intro db c w
      simp [loadDB]
  | cons r rest ih =>
      intro db c w
      by_cases hok : rowOk r = true
      · obtain ⟨pid, pr, sq, h1, h2, h3⟩ := rowOk_iff.mp hok
        rw [List.foldl_cons]
        simp only [csv_insert_row_of_ok h1 h2 h3]
        rw [ih]
        have hdb : loadDB db (r :: rest) =
            loadDB { db with
              products := upsertProduct db.products (rowProduct r pid pr sq) } rest := by
          simp only [loadDB, List.foldl_cons, csv_insert_row_of_ok h1 h2 h3]
        have hcnt : (r :: rest).countP rowOk = rest.countP rowOk + 1 :=
          List.countP_cons_of_pos _ _ hok
        have hfil : (r :: rest).filter (fun r => !rowOk r) =
            rest.filter (fun r => !rowOk r) :=
          List.filter_cons_of_neg (by simp [hok])
        rw [hdb, hcnt, hfil, show c + 1 + List.countP rowOk rest =
          c + (List.countP rowOk rest + 1) from by omega]
      · have hf : rowOk r = false := by
          revert hok
          cases rowOk r <;> simp
        rw [List.foldl_cons]
        simp only [csv_insert_row_none hf]
        rw [ih]
        have hdb : loadDB db (r :: rest) = loadDB db rest := by
          simp only [loadDB, List.foldl_cons, csv_insert_row_none hf]
        have hcnt : (r :: rest).countP rowOk = rest.countP rowOk :=
          List.countP_cons_of_neg _ _ (by simp [hf])
        have hfil : (r :: rest).filter (fun r => !rowOk r) =
            r :: rest.filter (fun r => !rowOk r) :=
          List.filter_cons_of_pos (by simp [hf])
        rw [hdb, hcnt, hfil]
        simp [List.append_assoc]

theorem mem_loadDB_preserve (rows : List CsvRow) : ∀ (d : DB) (p : Product),
    p ∈ d.products →
    (∀ r ∈ rows, r.product_id ≠ some p.product_id ∧ r.barcode ≠ p.barcode) →
    p ∈ (loadDB d rows).products := by
  induction rows with
  | nil =>
      intro d p hp _
      exact hp
  | cons r rest ih =>
      intro d p hp hc
      by_cases hok : rowOk r = true
      · obtain ⟨pid, pr, sq, h1, h2, h3⟩ := rowOk_iff.mp hok
        have hstep : loadDB d (r :: rest) =
            loadDB { d with
              products := upsertProduct d.products (rowProduct r pid pr sq) } rest := by
          simp only [loadDB, List.foldl_cons, csv_insert_row_of_ok h1 h2 h3]
        rw [hstep]
        apply ih
        · show p ∈ upsertProduct d.products (rowProduct r pid pr sq)
          unfold upsertProduct
          apply List.mem_append_left
          apply List.mem_filter.mpr
          refine ⟨hp, ?_⟩
          have hcr := hc r (List.mem_cons_self r rest)
          simp only [decide_eq_true_eq]
          rw [show (rowProduct r pid pr sq).product_id = pid from rfl,
              show (rowProduct r pid pr sq).barcode = r.barcode from rfl]
          constructor
          · intro he
            exact hcr.1 (by rw [h1, he])
          · intro he
            exact hcr.2 he.symm
        · intro r' hr'
          exact hc r' (List.mem_cons_of_mem r hr')
      · have hf : rowOk r = false := by
          revert hok
          cases rowOk r <;> simp
        have hstep : loadDB d (r :: rest) = loadDB d rest := by
          simp only [loadDB, List.foldl_cons, csv_insert_row_none hf]
        rw [hstep]
        exact ih d p hp (fun r' hr' => hc r' (List.mem_cons_of_mem r hr'))

theorem mem_loadDB_insert (rows : List CsvRow) : ∀ (d : DB) (r : CsvRow)
    (pid : Int) (pr : Rat) (sq : Int),
    r ∈ rows → r.product_id = some pid → r.price = some pr →
    r.stock_quantity = some sq →
    List.Pairwise (fun a b => a.product_id ≠ b.product_id ∧ a.barcode ≠ b.barcode) rows →
    rowProduct r pid pr sq ∈ (loadDB d rows).products := by
  induction rows with
  | nil =>
      intro d r pid pr sq h
      exact absurd h (List.not_mem_nil r)
  | cons r0 rest ih =>
      intro d r pid pr sq hmem h1 h2 h3 hpw
      rcases List.mem_cons.mp hmem with rfl | hmem'
      · have hstep : loadDB d (r :: rest) =
            loadDB { d with
              products := upsertProduct d.products (rowProduct r pid pr sq) } rest := by
          simp only [loadDB, List.foldl_cons, csv_insert_row_of_ok h1 h2 h3]
        rw [hstep]
        apply mem_loadDB_preserve
        · show rowProduct r pid pr sq ∈ upsertProduct d.products (rowProduct r pid pr sq)
          unfold upsertProduct
          exact List.mem_append_right _ (List.mem_singleton.mpr rfl)
        · intro r' hr'
          have hrel := (List.pairwise_cons.mp hpw).1 r' hr'
          constructor
          · intro hcontra
            exact hrel.1 (by rw [h1, hcontra]; rfl)
          · intro hcontra
            exact hrel.2 (by rw [hcontra]; rfl)
      · by_cases hok : rowOk r0 = true
        · obtain ⟨pid0, pr0, sq0, g1, g2, g3⟩ := rowOk_iff.mp hok
          have hstep : loadDB d (r0 :: rest) =
              loadDB { d with
                products := upsertProduct d.products (rowProduct r0 pid0 pr0 sq0) } rest := by
            simp only [loadDB, List.foldl_cons, csv_insert_row_of_ok g1 g2 g3]
          rw [hstep]
          exact ih _ r pid pr sq hmem' h1 h2 h3 (List.pairwise_cons.mp hpw).2
        · have hf : rowOk r0 = false := by
            revert hok
            cases rowOk r0 <;> simp
          have hstep : loadDB d (r0 :: rest) = loadDB d rest := by
            simp only [loadDB, List.foldl_cons, csv_insert_row_none hf]
          rw [hstep]
          exact ih d r pid pr sq hmem' h1 h2 h3 (List.pairwise_cons.mp hpw).2

/-- C10: a bulk catalog load of `n` rows in which exactly one row has a
missing/type-invalid `price` and all other rows are valid (with pairwise
distinct identifiers and barcodes) upserts every other row keyed by
`product_id`, reports only the skipped row with its identifier, and returns a
success count of `n - 1`. -/
theorem bulk_load_one_bad_price
    (db : DB) (pre post : List CsvRow) (bad : CsvRow) (bid : Int)
    (hbadprice : bad.price = none)
    (hbadid : bad.product_id = some bid)
    (hgood : ∀ r ∈ pre ++ post, rowOk r = true)
    (hdist : List.Pairwise (fun a b =>
        a.product_id ≠ b.product_id ∧ a.barcode ≠ b.barcode) (pre ++ bad :: post)) :
    (load_products_from_csv db (pre ++ bad :: post)).2.1 =
        (pre ++ bad :: post).length - 1
  ∧ (load_products_from_csv db (pre ++ bad :: post)).2.2 =
        ["Skipped row " ++ toString bid]
  ∧ ∀ r ∈ pre ++ post, ∀ (pid : Int) (pr : Rat) (sq : Int),
        r.product_id = some pid → r.price = some pr → r.stock_quantity = some sq →
        rowProduct r pid pr sq ∈
          (load_products_from_csv db (pre ++ bad :: post)).1.products := by
  have hload : load_products_from_csv db (pre ++ bad :: post) =
      (loadDB db (pre ++ bad :: post),
       0 + (pre ++ bad :: post).countP rowOk,
       [] ++ ((pre ++ bad :: post).filter (fun r => !rowOk r)).map skip_message) := by
    unfold load_products_from_csv
    exact load_fold_spec _ db 0 []
  have hbadok : rowOk bad = false := rowOk_false_of_price_none hbadprice
  refine ⟨?_, ?_, ?_⟩
  · rw [hload]
    show 0 + (pre ++ bad :: post).countP rowOk = (pre ++ bad :: post).length - 1
    have hc : (pre ++ bad :: post).countP rowOk = pre.length + post.length := by
      rw [List.countP_append, List.countP_cons_of_neg _ _ (by simp [hbadok]),
        List.countP_eq_length.mpr (fun a ha => hgood a (List.mem_append_left _ ha)),
        List.countP_eq_length.mpr (fun a ha => hgood a (List.mem_append_right _ ha))]
    rw [hc]
    simp only [List.length_append, List.length_cons, Nat.zero_add]
    omega
  · rw [hload]
    show [] ++ ((pre ++ bad :: post).filter (fun r => !rowOk r)).map skip_message =
      ["Skipped row " ++ toString bid]
    have hf : (pre ++ bad :: post).filter (fun r => !rowOk r) = [bad] := by
      rw [List.filter_append,
        List.filter_eq_nil_iff.mpr
          (fun a ha => by simp [hgood a (List.mem_append_left _ ha)]),
        List.filter_cons_of_pos (by simp [hbadok]),
        List.filter_eq_nil_iff.mpr
          (fun a ha => by simp [hgood a (List.mem_append_right _ ha)]),
        List.nil_append]
    rw [hf]
    simp [skip_message, hbadid]
  · intro r hr pid pr sq h1 h2 h3
    rw [hload]
    show rowProduct r pid pr sq ∈ (loadDB db (pre ++ bad :: post)).products
    apply mem_loadDB_insert _ db r pid pr sq _ h1 h2 h3 hdist
    rcases List.mem_append.mp hr with h | h
    · exact List.mem_append_left _ h
    · exact List.mem_append_right _ (List.mem_cons_of_mem bad h)

/-- Witness for C10: a three-row load where only the middle row lacks a
price gives success count 2, one skip report naming row 2, and upserts the
other rows. -/
theorem bulk_load_one_bad_price_witness :
    (load_products_from_csv ⟨[], [], []⟩ [c10row1, c10bad, c10row3]).2.1 = 2
  ∧ (load_products_from_csv ⟨[], [], []⟩ [c10row1, c10bad, c10row3]).2.2 =
      ["Skipped row 2"]
  ∧ rowProduct c10row3 3 30 5 ∈
      (load_products_from_csv ⟨[], [], []⟩ [c10row1, c10bad, c10row3]).1.products := by
  obtain ⟨h1, h2, h3⟩ := bulk_load_one_bad_price ⟨[], [], []⟩ [c10row1] [c10row3]
    c10bad 2 rfl rfl (by decide) (by decide)
  exact ⟨h1, h2, h3 c10row3 (by decide) 3 30 5 rfl rfl rfl⟩
